import Mathlib

/-!
Verification development for a command-line nutrition calculator
(single Python source file `app.py`).

The embedding below transcribes the arithmetic and control flow of the
source into Lean definitions:

* Python floats are modelled as exact rationals (`ℚ`); the source performs
  only +, -, *, / on decimal literals, and the specification states all
  values as exact decimals.
* The per-100g nutrient mapping returned by the food database is modelled
  as an association list `List (ℕ × ℚ)`; Python `dict.get(k, 0)` becomes
  `(List.lookup k).getD 0`.
* Interactive input parsing (`float(s)` / `int(s)`) is modelled by passing
  the parse result as an `Option`: `none` means the conversion raised
  `ValueError`, `some v` means it produced `v`.
* The network call of `fetch_from_usda` is modelled by an oracle
  `fetch : String → ℚ → Option NutrientProfile`; `none` covers both the
  not-found case and a caught transport error, since the source collapses
  the two into returning `None`.
* A Python exception that the source does NOT catch is modelled as
  `Except.error`; code whose exceptions are all caught returns `Except.ok`
  (or a plain value).
-/

namespace MacrosCalc

/-- Scaled nutrition values for one food lookup, mirroring the dictionary
returned by `fetch_from_usda` (source lines 30-38). -/
structure NutrientProfile where
  carbs : ℚ
  protein : ℚ
  fat : ℚ
  calories : ℚ
  fiber : ℚ
  quantity : ℚ
  food_description : String
deriving DecidableEq, Repr

/-- Python `nutrients.get(id, 0)` on the nutrient-id mapping. -/
def nutrientGet (nutrients : List (ℕ × ℚ)) (id : ℕ) : ℚ :=
  (nutrients.lookup id).getD 0

/-- Success path of `fetch_from_usda` (source lines 27-38): scale each
per-100g nutrient value by `quantity / 100`. -/
def extract_profile (nutrients : List (ℕ × ℚ)) (description : String)
    (quantity : ℚ) : NutrientProfile :=
  { carbs := nutrientGet nutrients 1005 / 100 * quantity
    protein := nutrientGet nutrients 1003 / 100 * quantity
    fat := nutrientGet nutrients 1004 / 100 * quantity
    calories := nutrientGet nutrients 1008 / 100 * quantity
    fiber := nutrientGet nutrients 1079 / 100 * quantity
    quantity := quantity
    food_description := description }

/-- `calculate_bmr` (source lines 81-84):
`10 * weight + 6.25 * height - 5 * age + (5 if gender == male else -161)`. -/
def calculate_bmr (weight height age : ℚ) (gender : String) : ℚ :=
  10 * weight + 6.25 * height - 5 * age +
    (if gender = "male" then 5 else -161)

/-- `calculate_tdee` (source lines 87-96): the `activity_factors` dict
lookup with default 1.2, unrolled key by key. -/
def calculate_tdee (bmr : ℚ) (activity_level : String) : ℚ :=
  bmr *
    (if activity_level = "sedentary" then 1.2
     else if activity_level = "light" then 1.375
     else if activity_level = "moderate" then 1.55
     else if activity_level = "active" then 1.725
     else if activity_level = "very active" then 1.9
     else 1.2)

/-- One bound of a recommended macro range (the comprehension body in
source line 107): `tdee * percent / 4 if nutrient != fat else
tdee * percent / 9`. -/
def macro_bound (nutrient : String) (tdee percent : ℚ) : ℚ :=
  if nutrient ≠ "fat" then tdee * percent / 4 else tdee * percent / 9

/-- Result shape of `recommended_macros`: one `(low, high)` pair per
nutrient key of the `ratios` dict. -/
structure MacroRanges where
  carbs : ℚ × ℚ
  protein : ℚ × ℚ
  fat : ℚ × ℚ
deriving DecidableEq, Repr

/-- `recommended_macros` (source lines 99-107): the dict comprehension over
`ratios = \x7b carbs: (45, 65), protein: (10, 35), fat: (20, 35) \x7d`,
unrolled over its three fixed keys. -/
def recommended_macros (tdee : ℚ) : MacroRanges :=
  { carbs := (macro_bound "carbs" tdee 45, macro_bound "carbs" tdee 65)
    protein := (macro_bound "protein" tdee 10, macro_bound "protein" tdee 35)
    fat := (macro_bound "fat" tdee 20, macro_bound "fat" tdee 35) }

/-- The `combined_macros` accumulator of menu choice 2 (source line 167):
the six numeric keys, without the food description. -/
structure AggregateProfile where
  carbs : ℚ
  protein : ℚ
  fat : ℚ
  calories : ℚ
  fiber : ℚ
  quantity : ℚ
deriving DecidableEq, Repr

/-- The all-zero initial accumulator (source line 167). -/
def zeroAggregate : AggregateProfile :=
  { carbs := 0, protein := 0, fat := 0, calories := 0, fiber := 0,
    quantity := 0 }

/-- The inner loop of source lines 183-184: add every numeric key of a
successful lookup into the accumulator. -/
def addProfile (acc : AggregateProfile) (m : NutrientProfile) :
    AggregateProfile :=
  { carbs := acc.carbs + m.carbs
    protein := acc.protein + m.protein
    fat := acc.fat + m.fat
    calories := acc.calories + m.calories
    fiber := acc.fiber + m.fiber
    quantity := acc.quantity + m.quantity }

/-- Aggregation of a list of successful lookup profiles (the effect of the
choice-2 loop on `combined_macros`, restricted to the lookups that
succeeded). -/
def aggregate (ps : List NutrientProfile) : AggregateProfile :=
  ps.foldl addProfile zeroAggregate

/-- Menu choice 1 (source lines 142-163). Arguments: the session result
list, the food name, the parse result of `float(quantity_str)` (`none`
means `ValueError`), and the lookup oracle. Returns the new result list
and the number of database lookups attempted. Both the parse failure and
the non-positive-quantity `raise` are caught by the `except` clause of
lines 150-152, which prints and continues. -/
def handle_choice1 (results : List NutrientProfile) (food : String)
    (quantityInput : Option ℚ)
    (fetch : String → ℚ → Option NutrientProfile) :
    List NutrientProfile × ℕ :=
  match quantityInput with
  | none => (results, 0)
  | some quantity =>
    if quantity ≤ 0 then (results, 0)
    else
      match fetch food quantity with
      | some m => (results ++ [m], 1)
      | none => (results, 1)

/-- One iteration of the choice-2 loop (source lines 169-184) acting on
the accumulator paired with a count of lookups attempted. An item whose
quantity fails to parse or is non-positive is skipped by `continue`
(lines 177-179) and attempts no lookup; a failed lookup adds nothing. -/
def lookup_item_step (fetch : String → ℚ → Option NutrientProfile)
    (acc : AggregateProfile × ℕ) (item : String × Option ℚ) :
    AggregateProfile × ℕ :=
  match item.2 with
  | none => acc
  | some quantity =>
    if quantity ≤ 0 then acc
    else
      match fetch item.1 quantity with
      | some m => (addProfile acc.1 m, acc.2 + 1)
      | none => (acc.1, acc.2 + 1)

/-- The whole choice-2 loop over the entered items (source lines
169-184). -/
def handle_choice2_loop (items : List (String × Option ℚ))
    (fetch : String → ℚ → Option NutrientProfile) :
    AggregateProfile × ℕ :=
  items.foldl (lookup_item_step fetch) (zeroAggregate, 0)

/-- Outcome reported by `save_results`: each constructor corresponds to
one of the print statements of source lines 69, 74, 76 and 78. -/
inductive SaveOutcome where
  | savedCsv
  | savedJson
  | invalidFormat
  | reportedError
deriving DecidableEq, Repr

/-- `save_results` (source lines 58-78). `file_format` is the lowercased
format answer; `io` is the outcome of the file write attempt for the
chosen branch (`Except.error` means the write raised). Every raise is
caught by `except Exception` (lines 77-78), so the function always
returns `Except.ok`; the result list is only read, never written, and is
handed back unchanged. -/
def save_results (file_format : String) (results : List NutrientProfile)
    (io : Except String Unit) :
    Except Unit (SaveOutcome × List NutrientProfile) :=
  if file_format = "csv" then
    match io with
    | .ok _ => .ok (.savedCsv, results)
    | .error _ => .ok (.reportedError, results)
  else if file_format = "json" then
    match io with
    | .ok _ => .ok (.savedJson, results)
    | .error _ => .ok (.reportedError, results)
  else .ok (.invalidFormat, results)

/-- One user action at the main menu, with every interactive input it
consumes carried as data. Numeric inputs appear as parse results
(`none` means the conversion raised `ValueError`). -/
inductive MenuAction where
  | choice1 (food : String) (quantityInput : Option ℚ)
  | choice2 (numItemsInput : Option ℕ) (items : List (String × Option ℚ))
  | choice3 (fileFormat : String) (io : Except String Unit)
  | choice4 (ageInput : Option ℤ) (weightInput heightInput : Option ℚ)
      (gender activity : String)
  | choice5
  | other (choice : String)

/-- `calculate_recommended_intake` (source lines 110-131). All three
numeric reads sit inside one `try`; if any raises `ValueError` the
function prints and returns normally, modelled as `none`. -/
def calculate_recommended_intake (ageInput : Option ℤ)
    (weightInput heightInput : Option ℚ) (gender activity : String) :
    Option (ℚ × MacroRanges) :=
  match ageInput, weightInput, heightInput with
  | some age, some weight, some height =>
    let bmr := calculate_bmr weight height (age : ℚ) gender
    let tdee := calculate_tdee bmr activity
    some (tdee, recommended_macros tdee)
  | _, _, _ => none

/-- One iteration of the `while True` loop of `main` (source lines
137-204). Returns `Except.error ()` exactly when an exception escapes the
loop body and kills the session; otherwise `Except.ok` with the new result
list and whether the loop continues. Note that in choice 2 the conversion
`int(input(...))` at source line 168 is NOT inside any `try`, so a parse
failure there is an uncaught `ValueError`. -/
def session_step (results : List NutrientProfile) (action : MenuAction)
    (fetch : String → ℚ → Option NutrientProfile) :
    Except Unit (List NutrientProfile × Bool) :=
  match action with
  | .choice1 food quantityInput =>
    .ok ((handle_choice1 results food quantityInput fetch).1, true)
  | .choice2 numItemsInput items =>
    match numItemsInput with
    | none => .error ()
    | some _ =>
      let _ := handle_choice2_loop items fetch
      .ok (results, true)
  | .choice3 fileFormat io =>
    if results = [] then .ok (results, true)
    else
      match save_results fileFormat results io with
      | .ok (_, rs) => .ok (rs, true)
      | .error e => .error e
  | .choice4 ageInput weightInput heightInput gender activity =>
    let _ := calculate_recommended_intake ageInput weightInput heightInput
      gender activity
    .ok (results, true)
  | .choice5 => .ok (results, false)
  | .other _ => .ok (results, true)

/-- A concrete lookup result used to instantiate universally quantified
theorems. -/
def sampleProfile1 : NutrientProfile :=
  { carbs := 10, protein := 5, fat := 2, calories := 80, fiber := 3,
    quantity := 100, food_description := "rice" }

/-- A second concrete lookup result. -/
def sampleProfile2 : NutrientProfile :=
  { carbs := 20, protein := 1, fat := 1, calories := 90, fiber := 4,
    quantity := 150, food_description := "apple" }

/-!  Theorems.  -/

/-- Closed form of `recommended_macros` with the three dict keys and the
fat test of `macro_bound` evaluated. -/
lemma recommended_macros_eval (t : ℚ) :
    recommended_macros t =
      ⟨(t * 45 / 4, t * 65 / 4), (t * 10 / 4, t * 35 / 4),
       (t * 20 / 9, t * 35 / 9)⟩ := by
  simp [recommended_macros, macro_bound]

/-- Fieldwise description of the choice-2 accumulation loop. -/
lemma foldl_addProfile_eval (l : List NutrientProfile) :
    ∀ acc : AggregateProfile,
      l.foldl addProfile acc =
        ⟨acc.carbs + (l.map NutrientProfile.carbs).sum,
         acc.protein + (l.map NutrientProfile.protein).sum,
         acc.fat + (l.map NutrientProfile.fat).sum,
         acc.calories + (l.map NutrientProfile.calories).sum,
         acc.fiber + (l.map NutrientProfile.fiber).sum,
         acc.quantity + (l.map NutrientProfile.quantity).sum⟩ := by
  induction l with
  | nil => intro acc; simp
  | cons p l ih =>
    intro acc
    rw [List.foldl_cons, ih (addProfile acc p)]
    simp only [addProfile, List.map_cons, List.sum_cons,
      AggregateProfile.mk.injEq]
    refine ⟨by ring, by ring, by ring, by ring, by ring, by ring⟩

/-- C1. The claim says `recommended_macros 2000` yields the carbohydrate
range [225, 325] and the fat range [2000 * 0.20 / 9, 2000 * 0.35 / 9].
The code multiplies the TDEE by the raw percent value (45, not 0.45)
before dividing by 4 or 9, so at tdee = 2000 it actually returns the
carbohydrate range (22500, 32500), the protein range (5000, 17500) and
the fat range (40000/9, 70000/9) — one hundred times the stated values:
the code omits the division by 100 that converts a percentage to a
fraction of calories. -/
theorem C1_recommended_macros_omits_percent_division :
    (recommended_macros 2000).carbs = (22500, 32500) ∧
    (recommended_macros 2000).protein = (5000, 17500) ∧
    (recommended_macros 2000).fat = (40000 / 9, 70000 / 9) ∧
    (recommended_macros 2000).carbs.1 ≠ 225 ∧
    (recommended_macros 2000).fat.2 ≠ 2000 * 0.35 / 9 := by
  rw [recommended_macros_eval]
  norm_num

/-- C2. For every per-100g nutrient mapping, description and quantity
q > 0, the extracted profile scales each nutrient id (1005 carbs, 1003
protein, 1004 fat, 1008 calories, 1079 fiber) by q / 100, a missing id
defaulting to 0 and never raising. -/
theorem C2_extract_profile_scales_each_nutrient
    (nutrients : List (ℕ × ℚ)) (desc : String) (q : ℚ) (hq : 0 < q) :
    (extract_profile nutrients desc q).carbs =
      (nutrients.lookup 1005).getD 0 / 100 * q ∧
    (extract_profile nutrients desc q).protein =
      (nutrients.lookup 1003).getD 0 / 100 * q ∧
    (extract_profile nutrients desc q).fat =
      (nutrients.lookup 1004).getD 0 / 100 * q ∧
    (extract_profile nutrients desc q).calories =
      (nutrients.lookup 1008).getD 0 / 100 * q ∧
    (extract_profile nutrients desc q).fiber =
      (nutrients.lookup 1079).getD 0 / 100 * q ∧
    (nutrients.lookup 1005 = none → (extract_profile nutrients desc q).carbs = 0) ∧
    (nutrients.lookup 1003 = none → (extract_profile nutrients desc q).protein = 0) ∧
    (nutrients.lookup 1004 = none → (extract_profile nutrients desc q).fat = 0) ∧
    (nutrients.lookup 1008 = none → (extract_profile nutrients desc q).calories = 0) ∧
    (nutrients.lookup 1079 = none → (extract_profile nutrients desc q).fiber = 0) := by
  refine ⟨rfl, rfl, rfl, rfl, rfl, ?_, ?_, ?_, ?_, ?_⟩ <;>
    · intro h
      simp [extract_profile, nutrientGet, h]

/-- Witness for C2 at a concrete mapping carrying carbs and calories only
and quantity 50: carbs = 30 / 100 * 50 = 15 and the missing protein id
contributes 0. -/
theorem C2_witness :
    (0 : ℚ) < 50 ∧
    ((extract_profile [(1005, 30), (1008, 120)] "rice" 50).carbs =
        ([((1005 : ℕ), (30 : ℚ)), (1008, 120)].lookup 1005).getD 0 / 100 * 50 ∧
      (extract_profile [(1005, 30), (1008, 120)] "rice" 50).protein =
        ([((1005 : ℕ), (30 : ℚ)), (1008, 120)].lookup 1003).getD 0 / 100 * 50 ∧
      (extract_profile [(1005, 30), (1008, 120)] "rice" 50).fat =
        ([((1005 : ℕ), (30 : ℚ)), (1008, 120)].lookup 1004).getD 0 / 100 * 50 ∧
      (extract_profile [(1005, 30), (1008, 120)] "rice" 50).calories =
        ([((1005 : ℕ), (30 : ℚ)), (1008, 120)].lookup 1008).getD 0 / 100 * 50 ∧
      (extract_profile [(1005, 30), (1008, 120)] "rice" 50).fiber =
        ([((1005 : ℕ), (30 : ℚ)), (1008, 120)].lookup 1079).getD 0 / 100 * 50 ∧
      ([((1005 : ℕ), (30 : ℚ)), (1008, 120)].lookup 1005 = none →
        (extract_profile [(1005, 30), (1008, 120)] "rice" 50).carbs = 0) ∧
      ([((1005 : ℕ), (30 : ℚ)), (1008, 120)].lookup 1003 = none →
        (extract_profile [(1005, 30), (1008, 120)] "rice" 50).protein = 0) ∧
      ([((1005 : ℕ), (30 : ℚ)), (1008, 120)].lookup 1004 = none →
        (extract_profile [(1005, 30), (1008, 120)] "rice" 50).fat = 0) ∧
      ([((1005 : ℕ), (30 : ℚ)), (1008, 120)].lookup 1008 = none →
        (extract_profile [(1005, 30), (1008, 120)] "rice" 50).calories = 0) ∧
      ([((1005 : ℕ), (30 : ℚ)), (1008, 120)].lookup 1079 = none →
        (extract_profile [(1005, 30), (1008, 120)] "rice" 50).fiber = 0)) :=
  ⟨by norm_num,
   C2_extract_profile_scales_each_nutrient [(1005, 30), (1008, 120)] "rice" 50
     (by norm_num)⟩

/-- C3. `calculate_bmr` computes the Mifflin-St Jeor form: constant +5
for gender string "male", constant -161 for "female"; at (70, 175, 25,
male) the value is 1673.75. -/
theorem C3_calculate_bmr_formula :
    (∀ w h a : ℚ,
      calculate_bmr w h a "male" = 10 * w + 6.25 * h - 5 * a + 5) ∧
    (∀ w h a : ℚ,
      calculate_bmr w h a "female" = 10 * w + 6.25 * h - 5 * a - 161) ∧
    calculate_bmr 70 175 25 "male" = 1673.75 := by
  refine ⟨fun w h a => ?_, fun w h a => ?_, ?_⟩
  · rw [calculate_bmr, if_pos rfl]
  · rw [calculate_bmr, if_neg (by decide)]
    ring
  · rw [calculate_bmr, if_pos rfl]
    norm_num

/-- C4, counterexample. The claim names the fifth table key
"very-active", but the key in the source dict is "very active" (with a
space), so on the string "very-active" the lookup falls through to the
default 1.2 instead of the multiplier 1.9 the claim assigns to it. -/
theorem C4_counterexample : calculate_tdee 1 "very-active" ≠ (1.9 : ℚ) := by
  rw [calculate_tdee, if_neg (by decide), if_neg (by decide),
    if_neg (by decide), if_neg (by decide), if_neg (by decide)]
  norm_num

/-- C4, amended: as the claim, with the fifth activity key spelled
"very active" as in the source. `calculate_tdee` multiplies bmr by the
table value sedentary 1.2, light 1.375, moderate 1.55, active 1.725,
"very active" 1.9; any string outside the table gets the default 1.2;
and tdee(1673.75, moderate) = 2594.3125. -/
theorem C4_calculate_tdee_table (bmr : ℚ) (s : String)
    (hs : s ≠ "sedentary" ∧ s ≠ "light" ∧ s ≠ "moderate" ∧
      s ≠ "active" ∧ s ≠ "very active") :
    calculate_tdee bmr "sedentary" = bmr * 1.2 ∧
    calculate_tdee bmr "light" = bmr * 1.375 ∧
    calculate_tdee bmr "moderate" = bmr * 1.55 ∧
    calculate_tdee bmr "active" = bmr * 1.725 ∧
    calculate_tdee bmr "very active" = bmr * 1.9 ∧
    calculate_tdee bmr s = bmr * 1.2 ∧
    calculate_tdee 1673.75 "moderate" = 2594.3125 := by
  obtain ⟨h1, h2, h3, h4, h5⟩ := hs
  refine ⟨?_, ?_, ?_, ?_, ?_, ?_, ?_⟩
  · rw [calculate_tdee, if_pos rfl]
  · rw [calculate_tdee, if_neg (by decide), if_pos rfl]
  · rw [calculate_tdee, if_neg (by decide), if_neg (by decide), if_pos rfl]
  · rw [calculate_tdee, if_neg (by decide), if_neg (by decide),
      if_neg (by decide), if_pos rfl]
  · rw [calculate_tdee, if_neg (by decide), if_neg (by decide),
      if_neg (by decide), if_neg (by decide), if_pos rfl]
  · rw [calculate_tdee, if_neg h1, if_neg h2, if_neg h3, if_neg h4,
      if_neg h5]
  · rw [calculate_tdee, if_neg (by decide), if_neg (by decide), if_pos rfl]
    norm_num

/-- Witness for C4 at bmr = 2 and the out-of-table string "jogging". -/
theorem C4_witness :
    (("jogging" : String) ≠ "sedentary" ∧ ("jogging" : String) ≠ "light" ∧
      ("jogging" : String) ≠ "moderate" ∧ ("jogging" : String) ≠ "active" ∧
      ("jogging" : String) ≠ "very active") ∧
    (calculate_tdee 2 "sedentary" = 2 * 1.2 ∧
      calculate_tdee 2 "light" = 2 * 1.375 ∧
      calculate_tdee 2 "moderate" = 2 * 1.55 ∧
      calculate_tdee 2 "active" = 2 * 1.725 ∧
      calculate_tdee 2 "very active" = 2 * 1.9 ∧
      calculate_tdee 2 "jogging" = 2 * 1.2 ∧
      calculate_tdee 1673.75 "moderate" = 2594.3125) :=
  ⟨by refine ⟨by decide, by decide, by decide, by decide, by decide⟩,
   C4_calculate_tdee_table 2 "jogging"
     ⟨by decide, by decide, by decide, by decide, by decide⟩⟩

/-- C5, counterexample. The claim asserts low ≤ high for every tdee, but
for a negative tdee (reachable, since biometric inputs are not validated
for positivity) every range is reversed: at tdee = -4 the carbohydrate
range is (-45, -65) with -45 > -65. -/
theorem C5_counterexample :
    ¬ ((recommended_macros (-4)).carbs.1 ≤ (recommended_macros (-4)).carbs.2 ∧
       (recommended_macros (-4)).protein.1 ≤ (recommended_macros (-4)).protein.2 ∧
       (recommended_macros (-4)).fat.1 ≤ (recommended_macros (-4)).fat.2) := by
  rw [recommended_macros_eval]
  norm_num

/-- C5, amended: for every tdee ≥ 0, each of the three ranges returned by
`recommended_macros` has its low bound ≤ its high bound. -/
theorem C5_ranges_ordered (tdee : ℚ) (ht : 0 ≤ tdee) :
    (recommended_macros tdee).carbs.1 ≤ (recommended_macros tdee).carbs.2 ∧
    (recommended_macros tdee).protein.1 ≤ (recommended_macros tdee).protein.2 ∧
    (recommended_macros tdee).fat.1 ≤ (recommended_macros tdee).fat.2 := by
  rw [recommended_macros_eval]
  refine ⟨?_, ?_, ?_⟩ <;> · dsimp only; nlinarith

/-- Witness for C5 at tdee = 2000. -/
theorem C5_witness :
    (0 : ℚ) ≤ 2000 ∧
    ((recommended_macros 2000).carbs.1 ≤ (recommended_macros 2000).carbs.2 ∧
      (recommended_macros 2000).protein.1 ≤ (recommended_macros 2000).protein.2 ∧
      (recommended_macros 2000).fat.1 ≤ (recommended_macros 2000).fat.2) :=
  ⟨by norm_num, C5_ranges_ordered 2000 (by norm_num)⟩

/-- C6. Aggregating any list of profiles gives the fieldwise sums over
the list (quantity included), the empty aggregation is the all-zero
accumulator, and aggregation of a permutation of the list gives the same
result. -/
theorem C6_aggregate_fieldwise_sums (l m : List NutrientProfile)
    (hp : l.Perm m) :
    (aggregate l).carbs = (l.map NutrientProfile.carbs).sum ∧
    (aggregate l).protein = (l.map NutrientProfile.protein).sum ∧
    (aggregate l).fat = (l.map NutrientProfile.fat).sum ∧
    (aggregate l).calories = (l.map NutrientProfile.calories).sum ∧
    (aggregate l).fiber = (l.map NutrientProfile.fiber).sum ∧
    (aggregate l).quantity = (l.map NutrientProfile.quantity).sum ∧
    aggregate ([] : List NutrientProfile) = zeroAggregate ∧
    aggregate l = aggregate m := by
  have key : ∀ xs : List NutrientProfile,
      aggregate xs =
        ⟨(xs.map NutrientProfile.carbs).sum,
         (xs.map NutrientProfile.protein).sum,
         (xs.map NutrientProfile.fat).sum,
         (xs.map NutrientProfile.calories).sum,
         (xs.map NutrientProfile.fiber).sum,
         (xs.map NutrientProfile.quantity).sum⟩ := by
    intro xs
    rw [aggregate, foldl_addProfile_eval xs zeroAggregate]
    simp [zeroAggregate]
  refine ⟨by rw [key], by rw [key], by rw [key], by rw [key], by rw [key],
    by rw [key], by rw [key]; rfl, ?_⟩
  rw [key, key]
  simp only [AggregateProfile.mk.injEq]
  refine ⟨(hp.map _).sum_eq, (hp.map _).sum_eq, (hp.map _).sum_eq,
    (hp.map _).sum_eq, (hp.map _).sum_eq, (hp.map _).sum_eq⟩

/-- Witness for C6 on the two sample profiles and their swap. -/
theorem C6_witness :
    ([sampleProfile1, sampleProfile2].Perm [sampleProfile2, sampleProfile1]) ∧
    ((aggregate [sampleProfile1, sampleProfile2]).carbs =
        ([sampleProfile1, sampleProfile2].map NutrientProfile.carbs).sum ∧
      (aggregate [sampleProfile1, sampleProfile2]).protein =
        ([sampleProfile1, sampleProfile2].map NutrientProfile.protein).sum ∧
      (aggregate [sampleProfile1, sampleProfile2]).fat =
        ([sampleProfile1, sampleProfile2].map NutrientProfile.fat).sum ∧
      (aggregate [sampleProfile1, sampleProfile2]).calories =
        ([sampleProfile1, sampleProfile2].map NutrientProfile.calories).sum ∧
      (aggregate [sampleProfile1, sampleProfile2]).fiber =
        ([sampleProfile1, sampleProfile2].map NutrientProfile.fiber).sum ∧
      (aggregate [sampleProfile1, sampleProfile2]).quantity =
        ([sampleProfile1, sampleProfile2].map NutrientProfile.quantity).sum ∧
      aggregate ([] : List NutrientProfile) = zeroAggregate ∧
      aggregate [sampleProfile1, sampleProfile2] =
        aggregate [sampleProfile2, sampleProfile1]) :=
  ⟨List.Perm.swap sampleProfile2 sampleProfile1 [],
   C6_aggregate_fieldwise_sums [sampleProfile1, sampleProfile2]
     [sampleProfile2, sampleProfile1]
     (List.Perm.swap sampleProfile2 sampleProfile1 [])⟩

/-- C7. A lookup request whose quantity fails to parse or is ≤ 0 is
rejected before any database lookup: in choice 1 the handler performs 0
lookups and leaves the result list unchanged, the session loop continues,
and in the choice-2 loop such an item leaves the accumulator and the
lookup count untouched. -/
theorem C7_invalid_quantity_rejected_before_lookup
    (results : List NutrientProfile) (food : String) (qIn : Option ℚ)
    (fetch : String → ℚ → Option NutrientProfile)
    (acc : AggregateProfile × ℕ)
    (h : qIn = none ∨ ∃ q, qIn = some q ∧ q ≤ 0) :
    handle_choice1 results food qIn fetch = (results, 0) ∧
    session_step results (.choice1 food qIn) fetch = .ok (results, true) ∧
    lookup_item_step fetch acc (food, qIn) = acc := by
  rcases h with h | ⟨q, hq, hle⟩
  · subst h
    exact ⟨rfl, rfl, rfl⟩
  · subst hq
    refine ⟨?_, ?_, ?_⟩
    · simp [handle_choice1, hle]
    · simp [session_step, handle_choice1, hle]
    · simp [lookup_item_step, hle]

/-- Witness for C7 at quantity input -5 grams. -/
theorem C7_witness :
    ((some (-5 : ℚ) = none ∨ ∃ q, some (-5 : ℚ) = some q ∧ q ≤ 0) ∧
      handle_choice1 [] "apple" (some (-5)) (fun _ _ => none) = ([], 0) ∧
      session_step [] (.choice1 "apple" (some (-5))) (fun _ _ => none) =
        .ok ([], true) ∧
      lookup_item_step (fun _ _ => none) (zeroAggregate, 0)
        ("apple", some (-5)) = (zeroAggregate, 0)) :=
  ⟨Or.inr ⟨-5, rfl, by norm_num⟩,
   C7_invalid_quantity_rejected_before_lookup [] "apple" (some (-5))
     (fun _ _ => none) (zeroAggregate, 0)
     (Or.inr ⟨-5, rfl, by norm_num⟩)⟩

/-- C8. The claim says every malformed numeric input — quantity, age,
weight, and the item count of choice 2 — is reported and the session
continues. For quantity (choice 1) and age/weight (choice 4) this holds,
but the conversion `int(input(...))` for the item count at source line
168 is outside every `try` block, so a malformed count raises an uncaught
`ValueError` that terminates the session: the first conjunct shows the
choice-2 step erroring, the others show the handled prompts. -/
theorem C8_malformed_num_items_uncaught :
    session_step [] (.choice2 none []) (fun _ _ => none) = .error () ∧
    session_step [] (.choice1 "apple" none) (fun _ _ => none) =
      .ok ([], true) ∧
    session_step []
      (.choice4 none (some 70) (some 175) "male" "moderate")
      (fun _ _ => none) = .ok ([], true) ∧
    calculate_recommended_intake none (some 70) (some 175) "male"
      "moderate" = none ∧
    calculate_recommended_intake (some 25) none (some 175) "male"
      "moderate" = none :=
  ⟨rfl, rfl, rfl, rfl, rfl⟩

/-- C9. For a non-empty result list, `save_results` always returns
normally (every write failure and the invalid-format case are caught and
reported) and hands the result list back unchanged. -/
theorem C9_save_results_total_and_frame (fmt : String)
    (results : List NutrientProfile) (io : Except String Unit)
    (hne : results ≠ []) :
    ∃ o : SaveOutcome, save_results fmt results io = .ok (o, results) := by
  rw [save_results.eq_def]
  split_ifs <;> cases io <;> exact ⟨_, rfl⟩

/-- Witness for C9: an unknown format and a failing writer on a singleton
list still return normally with the list intact. -/
theorem C9_witness :
    ([sampleProfile1] ≠ ([] : List NutrientProfile)) ∧
    ∃ o : SaveOutcome,
      save_results "xml" [sampleProfile1] (.error "disk full") =
        .ok (o, [sampleProfile1]) :=
  ⟨by simp,
   C9_save_results_total_and_frame "xml" [sampleProfile1]
     (.error "disk full") (by simp)⟩

/-- C10. Every gender string other than exactly "male" — "female", a
misspelling, arbitrary text, or the empty string — takes the else branch
of `calculate_bmr` and gets the female constant -161; no input is ever
rejected. -/
theorem C10_nonmale_gender_gets_female_constant (w h a : ℚ) (g : String)
    (hg : g ≠ "male") :
    calculate_bmr w h a g = 10 * w + 6.25 * h - 5 * a - 161 := by
  rw [calculate_bmr, if_neg hg]
  ring

/-- Witness for C10 at the arbitrary gender string "unknown". -/
theorem C10_witness :
    (("unknown" : String) ≠ "male") ∧
    calculate_bmr 70 175 25 "unknown" =
      10 * 70 + 6.25 * 175 - 5 * 25 - 161 :=
  ⟨by decide, C10_nonmale_gender_gets_female_constant 70 175 25 "unknown"
    (by decide)⟩

end MacrosCalc
